import Mathlib

/-!
Verification of the ubiquiti-stock-alert monitor.

Shallow embedding of the core modules:
* `src/deduplication.py`  — the time-windowed deduplication gate;
* `src/store_poller.py`   — the product probe, HTML stock classifier and
  the per-cycle transition detector;
* `src/ha_webhook.py`     — the outbound webhook sink client;
* `src/main.py`           — the alert-routing handlers.

Time is modelled as an integer number of seconds (`datetime.now()` values
become `Int` parameters threaded through the calls); a window of
`window_minutes` minutes is `60 * window_minutes` seconds.  Python dicts
keyed by strings become association lists with unique keys; network and
parsing effects become explicit inductive outcome values, so that every
function of the embedding is total exactly where the Python code is
documented never to raise.
-/

namespace StockAlert

/-! ### Python-dict model: association lists with unique keys -/

/-- Lookup of a key in an association list (`d[k]` / `k in d`). -/
def mapLookup {α : Type} : List (String × α) → String → Option α
  | [], _ => none
  | (k, v) :: rest, key => if k = key then some v else mapLookup rest key

/-- Update-or-add of a key (`d[k] = v`): replaces the value at the first
occurrence of the key, appends when the key is absent. -/
def mapInsert {α : Type} : List (String × α) → String → α → List (String × α)
  | [], key, val => [(key, val)]
  | (k, v) :: rest, key, val =>
    if k = key then (k, val) :: rest else (k, v) :: mapInsert rest key val

/-- Removal of a key (`d.pop(k, None)`); on unique-key lists this is exactly
the Python dict behaviour. -/
def mapErase {α : Type} (m : List (String × α)) (key : String) : List (String × α) :=
  m.filter (fun p => p.1 ≠ key)

/-- Python truthiness of an optional string argument (`if product_sku:`):
`None` and the empty string are falsy. -/
def pyTruthyStr : Option String → Bool
  | none => false
  | some s => s ≠ ""

/-- Python `str.lower()` on one character; like Lean's `Char.toLower` it only
moves the ASCII range (SKUs and the indicator phrases are ASCII). -/
def pyLowerChar (c : Char) : Char :=
  if 65 ≤ c.toNat ∧ c.toNat ≤ 90 then Char.ofNat (c.toNat + 32) else c

/-- Python's `str.lower()`. -/
def pyLower (s : String) : String := ⟨s.data.map pyLowerChar⟩

/-! ### `src/deduplication.py` — `DeduplicationEngine` -/

/-- The engine: configured window (minutes) and the `_last_alerts` dict
mapping lower-cased SKU to the last approved timestamp (seconds). -/
structure DeduplicationEngine where
  window_minutes : Int
  last_alerts : List (String × Int)
  deriving Repr, DecidableEq

/-- The method `DeduplicationEngine.should_alert`.  `now` is the value `datetime.now()`
would return at this call.  Returns the Python return value together with
the engine state after the call. -/
def DeduplicationEngine.should_alert (e : DeduplicationEngine) (now : Int)
    (product_sku : String) : Bool × DeduplicationEngine :=
  if e.window_minutes ≤ 0 then
    (true, e)
  else
    let sku_lower := pyLower product_sku
    match mapLookup e.last_alerts sku_lower with
    | some last_alert =>
      if now - last_alert < 60 * e.window_minutes then
        (false, e)
      else
        (true, ⟨e.window_minutes, mapInsert e.last_alerts sku_lower now⟩)
    | none =>
      (true, ⟨e.window_minutes, mapInsert e.last_alerts sku_lower now⟩)

/-- The method `DeduplicationEngine.clear`: `clear(sku)` pops the lower-cased key,
`clear()` empties the dict.  Python's `if product_sku:` makes the empty
string behave like the no-argument call. -/
def DeduplicationEngine.clear (e : DeduplicationEngine)
    (product_sku : Option String) : DeduplicationEngine :=
  if pyTruthyStr product_sku then
    ⟨e.window_minutes, mapErase e.last_alerts (pyLower (product_sku.getD ""))⟩
  else
    ⟨e.window_minutes, []⟩

/-- The method `DeduplicationEngine.get_status`: per tracked SKU, either a
"blocked for Ns" string or `"expired"`.  Pure read. -/
def DeduplicationEngine.get_status (e : DeduplicationEngine) (now : Int) :
    List (String × String) :=
  e.last_alerts.map fun p =>
    let remaining := 60 * e.window_minutes - (now - p.2)
    if remaining > 0 then (p.1, "blocked for " ++ toString remaining ++ "s")
    else (p.1, "expired")

/-- A sequence of `should_alert` calls, each with its own clock value. -/
def runCalls (e : DeduplicationEngine) : List (Int × String) → DeduplicationEngine
  | [] => e
  | (now, sku) :: rest => runCalls (e.should_alert now sku).2 rest

/-! ### `src/store_poller.py` — probe, classifier, transition detection -/

/-- The `ProductConfig` dataclass: static configuration for one monitored product. -/
structure ProductConfig where
  sku : String
  name : String
  url : String
  deriving Repr, DecidableEq

/-- The `ProductStatus` dataclass: result of one probe. -/
structure ProductStatus where
  sku : String
  name : String
  url : String
  in_stock : Bool
  quantity : Option Int := none
  deriving Repr, DecidableEq

/-- A `<button>` element as the classifier sees it: its `data-testid`
attribute (if any) and its string content (if any — BeautifulSoup's
`.string` is `None` for buttons with non-string content). -/
structure HtmlButton where
  dataTestid : Option String
  text : Option String
  deriving Repr, DecidableEq

/-- The parsed shape of a product page, as far as `_parse_product_page`
inspects it: the buttons, the visible page text, and the text of the
`data-testid="quantity-available"` element when present.  `unparsable`
stands for markup on which `BeautifulSoup` raises. -/
inductive HtmlDoc where
  | unparsable : HtmlDoc
  | parsed (buttons : List HtmlButton) (pageText : String)
      (quantityText : Option String) : HtmlDoc
  deriving Repr, DecidableEq

/-- Python's substring test `pat in hay`. -/
def strContains (hay pat : String) : Bool :=
  decide (pat.toList <:+: hay.toList)

/-- The non-whitespace run starting a list of characters. -/
def takeNonWs : List Char → List Char
  | [] => []
  | c :: cs => if c.isWhitespace then [] else c :: takeNonWs cs

/-- Python's `s.split()[0]`: the first whitespace-delimited token, `none`
when there is none (the `IndexError` path). -/
def firstToken : List Char → Option (List Char)
  | [] => none
  | c :: cs => if c.isWhitespace then firstToken cs else some (c :: takeNonWs cs)

/-- The decimal value of an ASCII digit. -/
def digitVal (c : Char) : Option Nat :=
  if 48 ≤ c.toNat ∧ c.toNat ≤ 57 then some (c.toNat - 48) else none

/-- Left-to-right accumulation of decimal digits; `none` on the first
non-digit. -/
def digitsToNatAux (acc : Nat) : List Char → Option Nat
  | [] => some acc
  | c :: cs =>
    match digitVal c with
    | some d => digitsToNatAux (acc * 10 + d) cs
    | none => none

/-- A non-empty all-digit run as a number. -/
def digitsToNat : List Char → Option Nat
  | [] => none
  | l => digitsToNatAux 0 l

/-- Python's `int(token)` on a whitespace-free token: optional sign then
decimal digits, `none` on anything unparsable (the `except ValueError`
path; digit-group underscores are not modelled). -/
def pyInt : List Char → Option Int
  | '+' :: rest => (digitsToNat rest).map Int.ofNat
  | '-' :: rest => (digitsToNat rest).map (fun n => -(n : Int))
  | l => (digitsToNat l).map Int.ofNat

/-- The fixed unavailability phrases of `_parse_product_page`. -/
def out_of_stock_indicators : List String :=
  ["out of stock", "sold out", "currently unavailable", "notify me", "coming soon"]

/-- The add-to-cart search: first by the structural attribute
`data-testid="add-to-cart"`, then by case-insensitive button text. -/
def find_add_to_cart (buttons : List HtmlButton) : Option HtmlButton :=
  match buttons.find? (fun b => b.dataTestid == some "add-to-cart") with
  | some b => some b
  | none =>
    buttons.find? (fun b =>
      match b.text with
      | some t => strContains (pyLower t) "add to cart"
      | none => false)

/-- The check `any(indicator in page_text for indicator in out_of_stock_indicators)`
over the lower-cased page text. -/
def has_out_of_stock_text (pageText : String) : Bool :=
  out_of_stock_indicators.any (fun ind => strContains (pyLower pageText) ind)

/-- The quantity extraction: first whitespace token of the element's
stripped text through `int(...)`; `ValueError`/`IndexError` give `None`. -/
def parse_quantity (quantityText : Option String) : Option Int :=
  match quantityText with
  | none => none
  | some qt =>
    match firstToken qt.data with
    | none => none
    | some tok => pyInt tok

/-- The method `StorePoller._parse_product_page`. -/
def parse_product_page (product : ProductConfig) (html : HtmlDoc) : ProductStatus :=
  match html with
  | .unparsable =>
    ⟨product.sku, product.name, product.url, false, none⟩
  | .parsed buttons pageText quantityText =>
    let add_to_cart := find_add_to_cart buttons
    let is_out_of_stock := has_out_of_stock_text pageText
    let in_stock := add_to_cart.isSome && !is_out_of_stock
    ⟨product.sku, product.name, product.url, in_stock, parse_quantity quantityText⟩

/-- Outcome of the HTTP fetch inside `check_product`: a response with a
status code and body, an `aiohttp.ClientError`, or any other exception. -/
inductive FetchResult where
  | response (status : Nat) (html : HtmlDoc)
  | clientError
  | unexpectedError
  deriving Repr, DecidableEq

/-- The method `StorePoller.check_product`, with the fetch outcome made explicit.
Total: every failure branch returns a `ProductStatus` instead of raising. -/
def check_product (product : ProductConfig) (fetch : FetchResult) : ProductStatus :=
  match fetch with
  | .response status html =>
    if status ≠ 200 then
      ⟨product.sku, product.name, product.url, false, none⟩
    else
      parse_product_page product html
  | .clientError =>
    ⟨product.sku, product.name, product.url, false, none⟩
  | .unexpectedError =>
    ⟨product.sku, product.name, product.url, false, none⟩

/-- An invocation of the `on_stock_alert` callback:
`(status.name, status.sku, status.url, status.quantity)`. -/
structure AlertCall where
  name : String
  sku : String
  url : String
  quantity : Option Int
  deriving Repr, DecidableEq

/-- The body of the `for product in self.products` loop of
`StorePoller._poll_once` for one product: reads the previous state
(default `False` for an unseen SKU), stores the fresh value
unconditionally, and emits the callback exactly on a `false → true`
transition. -/
def poll_product (states : List (String × Bool)) (product : ProductConfig)
    (fetch : FetchResult) : List (String × Bool) × Option AlertCall :=
  let status := check_product product fetch
  let was_in_stock := (mapLookup states product.sku).getD false
  let states' := mapInsert states product.sku status.in_stock
  if status.in_stock && !was_in_stock then
    (states', some ⟨status.name, status.sku, status.url, status.quantity⟩)
  else
    (states', none)

/-- The method `StorePoller._poll_once` over the configured product list, one fetch
outcome per product, collecting the emitted callbacks in order. -/
def poll_once (states : List (String × Bool)) :
    List (ProductConfig × FetchResult) → List (String × Bool) × List AlertCall
  | [] => (states, [])
  | (p, f) :: rest =>
    let step := poll_product states p f
    let next := poll_once step.1 rest
    (next.1, step.2.toList ++ next.2)

/-- Successive poll cycles for a single product, one fetch outcome per
cycle; records for each cycle whether an alert was emitted. -/
def cycleAlerts (product : ProductConfig) (states : List (String × Bool)) :
    List FetchResult → List Bool
  | [] => []
  | f :: rest =>
    let step := poll_product states product f
    step.2.isSome :: cycleAlerts product step.1 rest

/-! ### `src/ha_webhook.py` — `HAWebhookClient` -/

/-- Outcome of the webhook POST inside `send_alert`. -/
inductive SinkResult where
  | response (status : Nat)
  | clientError
  | unexpectedError
  deriving Repr, DecidableEq

/-- The outbound payload built by `send_alert`. -/
structure Payload where
  product_name : String
  product_sku : String
  source : String
  quantity : Option Int
  url : String
  message : Option String
  deriving Repr, DecidableEq

/-- The canonical search URL keyed by SKU. -/
def search_url (sku : String) : String :=
  "https://store.ui.com/us/en/search?q=" ++ sku

/-- The payload dict of `send_alert`; `url or f"…search?q={sku}"` falls back
to the search URL when `url` is `None` or empty (Python truthiness). -/
def build_payload (product_name product_sku source : String)
    (quantity : Option Int) (url : Option String) (message : Option String) :
    Payload :=
  { product_name := product_name
    product_sku := product_sku
    source := source
    quantity := quantity
    url := if pyTruthyStr url then url.getD "" else search_url product_sku
    message := message }

/-- The return value of `HAWebhookClient.send_alert`: `True` exactly on a
status-200 response; every other response and every exception path returns
`False`.  Total: never raises to the caller. -/
def send_alert (result : SinkResult) : Bool :=
  match result with
  | .response status => status == 200
  | .clientError => false
  | .unexpectedError => false

/-! ### `src/main.py` — the alert-routing handlers -/

/-- The handler `StockAlertMonitor._on_store_alert`: dedup gate, then on approval one
`send_alert` submission with `source="store_poller"` and the product URL.
Returns the engine after the call and the list of sink submissions, each
paired with its `send_alert` return value. -/
def on_store_alert (e : DeduplicationEngine) (now : Int)
    (product_name product_sku url : String) (quantity : Option Int)
    (sink : SinkResult) : DeduplicationEngine × List (Payload × Bool) :=
  let gate := e.should_alert now product_sku
  if gate.1 then
    (gate.2,
      [(build_payload product_name product_sku "store_poller" quantity
          (some url) none,
        send_alert sink)])
  else
    (gate.2, [])

/-- The handler `StockAlertMonitor._on_discord_alert`: dedup gate, then on approval one
`send_alert` submission with `source="discord"`, no URL and no quantity. -/
def on_discord_alert (e : DeduplicationEngine) (now : Int)
    (product_name product_sku message : String) (sink : SinkResult) :
    DeduplicationEngine × List (Payload × Bool) :=
  let gate := e.should_alert now product_sku
  if gate.1 then
    (gate.2,
      [(build_payload product_name product_sku "discord" none none
          (some message),
        send_alert sink)])
  else
    (gate.2, [])

/-- A fetch outcome observing the product in stock: a 200 response whose
page has an `add-to-cart` button and no unavailability text. -/
def inStockFetch : FetchResult :=
  .response 200 (.parsed [⟨some "add-to-cart", none⟩] "" none)

/-! ### Association-map lemmas -/

theorem mapLookup_mapInsert_self {α : Type} (m : List (String × α)) (k : String) (v : α) :
    mapLookup (mapInsert m k v) k = some v := by
  induction m with
  | nil => simp [mapInsert, mapLookup]
  | cons p rest ih =>
    by_cases h : p.1 = k
    · simp [mapInsert, mapLookup, h]
    · simpa [mapInsert, mapLookup, h] using ih

theorem mapErase_nil {α : Type} (k : String) : mapErase ([] : List (String × α)) k = [] := by
  simp [mapErase]

theorem mapErase_cons {α : Type} (a : String) (b : α) (rest : List (String × α)) (k : String) :
    mapErase ((a, b) :: rest) k =
      if a = k then mapErase rest k else (a, b) :: mapErase rest k := by
  by_cases h : a = k <;> simp [mapErase, List.filter_cons, h]

theorem mapLookup_mapInsert_ne {α : Type} (m : List (String × α)) (k k' : String) (v : α)
    (hne : k' ≠ k) : mapLookup (mapInsert m k v) k' = mapLookup m k' := by
  have hkk : ¬ k = k' := fun h => hne h.symm
  induction m with
  | nil => simp [mapInsert, mapLookup, hkk]
  | cons p rest ih =>
    obtain ⟨a, b⟩ := p
    by_cases h : a = k
    · subst h
      simp [mapInsert, mapLookup, hkk]
    · by_cases h' : a = k' <;> simp [mapInsert, mapLookup, h, h', ih, hne]

theorem mapLookup_mapErase_self {α : Type} (m : List (String × α)) (k : String) :
    mapLookup (mapErase m k) k = none := by
  induction m with
  | nil => simp [mapErase_nil, mapLookup]
  | cons p rest ih =>
    obtain ⟨a, b⟩ := p
    rw [mapErase_cons]
    by_cases h : a = k
    · simpa [h] using ih
    · simpa [mapLookup, h] using ih

theorem mapLookup_mapErase_ne {α : Type} (m : List (String × α)) (k k' : String)
    (hne : k' ≠ k) : mapLookup (mapErase m k) k' = mapLookup m k' := by
  induction m with
  | nil => simp [mapErase_nil]
  | cons p rest ih =>
    obtain ⟨a, b⟩ := p
    rw [mapErase_cons]
    by_cases h : a = k
    · rw [if_pos h, ih]
      have hak : ¬ a = k' := fun hk => hne (hk ▸ h)
      simp [mapLookup, hak]
    · rw [if_neg h]
      by_cases h' : a = k' <;> simp [mapLookup, h', ih]

/-! ### Claim theorems -/

/-- C1: for a positive window, `should_alert(s)` returns `true` exactly when
the lower-cased `s` is absent from `_last_alerts` or the elapsed time since
its recorded timestamp is at least the window; approval records `now` under
the lower-cased SKU, and rejection leaves the engine unchanged. -/
theorem should_alert_window_spec (e : DeduplicationEngine) (now : Int) (sku : String)
    (hW : 0 < e.window_minutes) :
    ((e.should_alert now sku).1 = true ↔
      (mapLookup e.last_alerts (pyLower sku) = none ∨
       ∃ last, mapLookup e.last_alerts (pyLower sku) = some last ∧
         60 * e.window_minutes ≤ now - last)) ∧
    ((e.should_alert now sku).1 = true →
      mapLookup (e.should_alert now sku).2.last_alerts (pyLower sku) = some now) ∧
    ((e.should_alert now sku).1 = false → (e.should_alert now sku).2 = e) := by
  have hW' : ¬ e.window_minutes ≤ 0 := by omega
  cases h : mapLookup e.last_alerts (pyLower sku) with
  | none =>
    have hcall : e.should_alert now sku =
        (true, ⟨e.window_minutes, mapInsert e.last_alerts (pyLower sku) now⟩) := by
      unfold DeduplicationEngine.should_alert
      simp [hW', h]
    rw [hcall]
    exact ⟨by simp, fun _ => by simpa using mapLookup_mapInsert_self e.last_alerts (pyLower sku) now,
      by simp⟩
  | some last =>
    by_cases hlt : now - last < 60 * e.window_minutes
    · have hcall : e.should_alert now sku = (false, e) := by
        unfold DeduplicationEngine.should_alert
        simp [hW', h, hlt]
      rw [hcall]
      refine ⟨?_, by simp, fun _ => rfl⟩
      constructor
      · intro hfalse; cases hfalse
      · rintro (hnone | ⟨last', hlast', hge⟩)
        · cases hnone
        · injection hlast' with hh
          subst hh
          exact absurd hge (by omega)
    · have hcall : e.should_alert now sku =
          (true, ⟨e.window_minutes, mapInsert e.last_alerts (pyLower sku) now⟩) := by
        unfold DeduplicationEngine.should_alert
        simp [hW', h, hlt]
      rw [hcall]
      exact ⟨iff_of_true rfl (Or.inr ⟨last, rfl, by omega⟩),
        fun _ => by simpa using mapLookup_mapInsert_self e.last_alerts (pyLower sku) now,
        by simp⟩

/-- Witness for C1: a fresh 30-minute engine approving an unseen SKU. -/
theorem should_alert_window_spec_witness :
    (0 : Int) < (⟨30, []⟩ : DeduplicationEngine).window_minutes ∧
    ((((⟨30, []⟩ : DeduplicationEngine).should_alert 0 "SKU-1").1 = true ↔
      (mapLookup (⟨30, []⟩ : DeduplicationEngine).last_alerts (pyLower "SKU-1") = none ∨
       ∃ last, mapLookup (⟨30, []⟩ : DeduplicationEngine).last_alerts (pyLower "SKU-1") =
           some last ∧
         60 * (⟨30, []⟩ : DeduplicationEngine).window_minutes ≤ 0 - last)) ∧
     ((((⟨30, []⟩ : DeduplicationEngine).should_alert 0 "SKU-1").1 = true →
        mapLookup ((⟨30, []⟩ : DeduplicationEngine).should_alert 0 "SKU-1").2.last_alerts
          (pyLower "SKU-1") = some 0) ∧
      (((⟨30, []⟩ : DeduplicationEngine).should_alert 0 "SKU-1").1 = false →
        ((⟨30, []⟩ : DeduplicationEngine).should_alert 0 "SKU-1").2 = ⟨30, []⟩))) :=
  ⟨by decide, should_alert_window_spec ⟨30, []⟩ 0 "SKU-1" (by decide)⟩

theorem runCalls_window_nonpos (e : DeduplicationEngine) (calls : List (Int × String))
    (hW : e.window_minutes ≤ 0) : runCalls e calls = e := by
  induction calls with
  | nil => rfl
  | cons c rest ih =>
    obtain ⟨t, s⟩ := c
    have h2 : (e.should_alert t s).2 = e := by
      unfold DeduplicationEngine.should_alert
      simp [hW]
    simp only [runCalls]
    rw [h2, ih]

/-- C5: with a non-positive window every `should_alert` call returns `true`
and leaves the engine untouched, so a fresh engine stays empty over any
call sequence and `get_status` returns the empty map. -/
theorem window_nonpos_spec (e : DeduplicationEngine) (calls : List (Int × String))
    (now qnow : Int) (sku : String) (hW : e.window_minutes ≤ 0)
    (hemp : e.last_alerts = []) :
    (e.should_alert now sku).1 = true ∧
    (e.should_alert now sku).2 = e ∧
    runCalls e calls = e ∧
    (runCalls e calls).get_status qnow = [] := by
  have h1 : e.should_alert now sku = (true, e) := by
    unfold DeduplicationEngine.should_alert
    simp [hW]
  refine ⟨by rw [h1], by rw [h1], runCalls_window_nonpos e calls hW, ?_⟩
  rw [runCalls_window_nonpos e calls hW]
  unfold DeduplicationEngine.get_status
  rw [hemp]
  rfl

/-- Witness for C5: a disabled gate over three calls. -/
theorem window_nonpos_spec_witness :
    (⟨0, []⟩ : DeduplicationEngine).window_minutes ≤ 0 ∧
    (⟨0, []⟩ : DeduplicationEngine).last_alerts = [] ∧
    (((⟨0, []⟩ : DeduplicationEngine).should_alert 3 "x").1 = true ∧
     ((⟨0, []⟩ : DeduplicationEngine).should_alert 3 "x").2 = ⟨0, []⟩ ∧
     runCalls ⟨0, []⟩ [(0, "a"), (5, "A"), (100, "b")] = ⟨0, []⟩ ∧
     (runCalls ⟨0, []⟩ [(0, "a"), (5, "A"), (100, "b")]).get_status 7 = []) :=
  ⟨by decide, by decide,
    window_nonpos_spec ⟨0, []⟩ [(0, "a"), (5, "A"), (100, "b")] 3 7 "x"
      (by decide) (by decide)⟩

/-- C9 counterexample: `clear("")` with the explicit empty-string SKU falls
into Python's falsy branch and empties the whole map, removing the record
of the unrelated SKU `"a"` — so `clear(s)` does not remove only `s`'s
record for every SKU string `s`. -/
theorem clear_spec_counterexample :
    ((⟨30, [("a", 0)]⟩ : DeduplicationEngine).clear (some "")).last_alerts = [] ∧
    pyLower "" ≠ pyLower "a" := by decide

/-- C9 (amended): for every NON-EMPTY SKU `s`, `clear(s)` removes exactly
the record of the lower-cased `s` and leaves every other key unchanged;
`clear()` with no argument removes all records (and so does `clear("")`,
by Python truthiness). -/
theorem clear_spec (e : DeduplicationEngine) (s k : String) (hs : s ≠ "")
    (hk : k ≠ pyLower s) :
    mapLookup (e.clear (some s)).last_alerts (pyLower s) = none ∧
    mapLookup (e.clear (some s)).last_alerts k = mapLookup e.last_alerts k ∧
    (e.clear (some s)).window_minutes = e.window_minutes ∧
    (e.clear none).last_alerts = [] := by
  have hcall : e.clear (some s) =
      ⟨e.window_minutes, mapErase e.last_alerts (pyLower s)⟩ := by
    unfold DeduplicationEngine.clear
    simp [pyTruthyStr, hs]
  rw [hcall]
  refine ⟨mapLookup_mapErase_self _ _, mapLookup_mapErase_ne _ _ _ hk, rfl, ?_⟩
  unfold DeduplicationEngine.clear
  simp [pyTruthyStr]

/-- Witness for C9 (amended): clearing `"A"` from a two-entry map. -/
theorem clear_spec_witness :
    ("A" : String) ≠ "" ∧
    ("b" : String) ≠ pyLower "A" ∧
    (mapLookup ((⟨30, [("a", 0), ("b", 1)]⟩ : DeduplicationEngine).clear
        (some "A")).last_alerts (pyLower "A") = none ∧
     mapLookup ((⟨30, [("a", 0), ("b", 1)]⟩ : DeduplicationEngine).clear
        (some "A")).last_alerts "b" =
       mapLookup (⟨30, [("a", 0), ("b", 1)]⟩ : DeduplicationEngine).last_alerts "b" ∧
     ((⟨30, [("a", 0), ("b", 1)]⟩ : DeduplicationEngine).clear
        (some "A")).window_minutes =
       (⟨30, [("a", 0), ("b", 1)]⟩ : DeduplicationEngine).window_minutes ∧
     ((⟨30, [("a", 0), ("b", 1)]⟩ : DeduplicationEngine).clear none).last_alerts = []) :=
  ⟨by decide, by decide,
    clear_spec ⟨30, [("a", 0), ("b", 1)]⟩ "A" "b" (by decide) (by decide)⟩

/-- C2: one poll step stores the freshly observed `in_stock` value
unconditionally under the product's SKU and emits an alert exactly when the
fresh value is `true` and the stored previous value (defaulting to `false`)
was `false`; concretely, the observation sequence out,out,in,in,out,in for
one SKU alerts after cycles 3 and 6 only. -/
theorem poll_transition_spec (states : List (String × Bool)) (product : ProductConfig)
    (fetch : FetchResult) :
    mapLookup (poll_product states product fetch).1 product.sku =
      some (check_product product fetch).in_stock ∧
    ((poll_product states product fetch).2.isSome = true ↔
      ((check_product product fetch).in_stock = true ∧
       (mapLookup states product.sku).getD false = false)) ∧
    cycleAlerts ⟨"SKU-1", "Name", "https://x"⟩ []
        [.clientError, .clientError, inStockFetch, inStockFetch, .clientError,
         inStockFetch] =
      [false, false, true, false, false, true] := by
  refine ⟨?_, ?_, by decide⟩
  · have h1 : (poll_product states product fetch).1 =
        mapInsert states product.sku (check_product product fetch).in_stock := by
      simp only [poll_product]
      split <;> rfl
    rw [h1]
    exact mapLookup_mapInsert_self _ _ _
  · cases hs : (check_product product fetch).in_stock <;>
      cases hw : (mapLookup states product.sku).getD false <;>
      simp [poll_product, hs, hw]

/-- C6 counterexample: the poller's per-product state map keys by the exact
configured SKU string.  After an in-stock observation recorded under
`"ABC"`, the state for `"abc"` is still absent and a poll step for a
product configured as `"abc"` emits a fresh alert — the two casings are not
treated as the same product, although their lower-casings agree. -/
theorem sku_case_spec_counterexample :
    mapLookup (poll_product [] ⟨"ABC", "n", "u"⟩ inStockFetch).1 "abc" = none ∧
    (poll_product (poll_product [] ⟨"ABC", "n", "u"⟩ inStockFetch).1
        ⟨"abc", "n", "u"⟩ inStockFetch).2.isSome = true ∧
    pyLower "ABC" = pyLower "abc" := by decide

/-- C6 (amended): SKU comparisons are case-insensitive in the deduplication
gate — `should_alert` depends only on the lower-cased SKU, and
`should_alert("ABC")` then `should_alert("abc")` within the window returns
`(true, false)` — while the poller's per-product state map is keyed by the
exact configured SKU string, so a key differing from the polled product's
SKU (even only in case) is left untouched. -/
theorem sku_case_spec (e : DeduplicationEngine) (now : Int) (s t : String)
    (states : List (String × Bool)) (product : ProductConfig) (fetch : FetchResult)
    (k : String) (h : pyLower s = pyLower t) (hk : k ≠ product.sku) :
    e.should_alert now s = e.should_alert now t ∧
    ((DeduplicationEngine.should_alert ⟨30, []⟩ 0 "ABC").1 = true ∧
      (DeduplicationEngine.should_alert
        (DeduplicationEngine.should_alert ⟨30, []⟩ 0 "ABC").2 5 "abc").1 = false) ∧
    mapLookup (poll_product states product fetch).1 k = mapLookup states k := by
  refine ⟨?_, by decide, ?_⟩
  · unfold DeduplicationEngine.should_alert
    rw [h]
  · have h1 : (poll_product states product fetch).1 =
        mapInsert states product.sku (check_product product fetch).in_stock := by
      simp only [poll_product]
      split <;> rfl
    rw [h1]
    exact mapLookup_mapInsert_ne _ _ _ _ hk

/-- Witness for C6 (amended): `"UDM-Pro"` and `"udm-pro"` share a
lower-casing; the poller state key `"abc"` differs from the polled SKU. -/
theorem sku_case_spec_witness :
    pyLower "UDM-Pro" = pyLower "udm-pro" ∧
    ("abc" : String) ≠ ("ABC" : String) ∧
    ((⟨30, []⟩ : DeduplicationEngine).should_alert 7 "UDM-Pro" =
      (⟨30, []⟩ : DeduplicationEngine).should_alert 7 "udm-pro" ∧
     ((DeduplicationEngine.should_alert ⟨30, []⟩ 0 "ABC").1 = true ∧
       (DeduplicationEngine.should_alert
         (DeduplicationEngine.should_alert ⟨30, []⟩ 0 "ABC").2 5 "abc").1 = false) ∧
     mapLookup (poll_product [] ⟨"ABC", "n", "u"⟩ inStockFetch).1 "abc" =
       mapLookup ([] : List (String × Bool)) "abc") :=
  ⟨by decide, by decide,
    sku_case_spec ⟨30, []⟩ 7 "UDM-Pro" "udm-pro" [] ⟨"ABC", "n", "u"⟩ inStockFetch
      "abc" (by decide) (by decide)⟩

/-- C10: a transient fetch failure while the stored state is `true` stores
`false` and emits nothing that cycle; a following probe that observes the
product (still) in stock then emits a second alert although no new restock
occurred. -/
theorem transient_failure_realert (states : List (String × Bool))
    (product : ProductConfig) (fetch : FetchResult)
    (hprev : mapLookup states product.sku = some true)
    (hin : (check_product product fetch).in_stock = true) :
    (poll_product states product .clientError).2 = none ∧
    mapLookup (poll_product states product .clientError).1 product.sku = some false ∧
    (poll_product (poll_product states product .clientError).1 product
        fetch).2.isSome = true := by
  have hfail : check_product product .clientError =
      ⟨product.sku, product.name, product.url, false, none⟩ := rfl
  have h1 : poll_product states product .clientError =
      (mapInsert states product.sku false, none) := by
    simp [poll_product, hfail]
  refine ⟨by rw [h1], ?_, ?_⟩
  · rw [h1]
    exact mapLookup_mapInsert_self _ _ _
  · rw [h1]
    have hw : (mapLookup (mapInsert states product.sku false) product.sku).getD false =
        false := by
      rw [mapLookup_mapInsert_self]
      rfl
    simp [poll_product, hin, hw]

/-- Witness for C10: `"SKU-1"` in stock, one failed fetch, one in-stock
fetch. -/
theorem transient_failure_realert_witness :
    mapLookup [("SKU-1", true)] (⟨"SKU-1", "N", "U"⟩ : ProductConfig).sku = some true ∧
    (check_product ⟨"SKU-1", "N", "U"⟩ inStockFetch).in_stock = true ∧
    ((poll_product [("SKU-1", true)] ⟨"SKU-1", "N", "U"⟩ .clientError).2 = none ∧
     mapLookup (poll_product [("SKU-1", true)] ⟨"SKU-1", "N", "U"⟩ .clientError).1
       (⟨"SKU-1", "N", "U"⟩ : ProductConfig).sku = some false ∧
     (poll_product (poll_product [("SKU-1", true)] ⟨"SKU-1", "N", "U"⟩ .clientError).1
        ⟨"SKU-1", "N", "U"⟩ inStockFetch).2.isSome = true) :=
  ⟨by decide, by decide,
    transient_failure_realert [("SKU-1", true)] ⟨"SKU-1", "N", "U"⟩ inStockFetch
      (by decide) (by decide)⟩

/-- C3: every failure path of `check_product` — a non-2xx response, a
transport (`ClientError`) failure, any other exception, and an unparsable
200 body — returns a `ProductStatus` with `in_stock = false` and
`quantity = none`; the embedding is a total function, matching "never
raises past this boundary". -/
theorem check_product_failure_spec (product : ProductConfig) (status : Nat)
    (html : HtmlDoc) (hnon2xx : ¬ (200 ≤ status ∧ status < 300)) :
    check_product product (.response status html) =
      ⟨product.sku, product.name, product.url, false, none⟩ ∧
    check_product product .clientError =
      ⟨product.sku, product.name, product.url, false, none⟩ ∧
    check_product product .unexpectedError =
      ⟨product.sku, product.name, product.url, false, none⟩ ∧
    check_product product (.response 200 .unparsable) =
      ⟨product.sku, product.name, product.url, false, none⟩ := by
  have h200 : status ≠ 200 := by omega
  refine ⟨?_, rfl, rfl, rfl⟩
  simp [check_product, h200]

/-- Witness for C3: a 404 response. -/
theorem check_product_failure_spec_witness :
    ¬ (200 ≤ 404 ∧ 404 < 300) ∧
    (check_product ⟨"S", "N", "U"⟩ (.response 404 .unparsable) =
      ⟨"S", "N", "U", false, none⟩ ∧
     check_product ⟨"S", "N", "U"⟩ .clientError = ⟨"S", "N", "U", false, none⟩ ∧
     check_product ⟨"S", "N", "U"⟩ .unexpectedError = ⟨"S", "N", "U", false, none⟩ ∧
     check_product ⟨"S", "N", "U"⟩ (.response 200 .unparsable) =
      ⟨"S", "N", "U", false, none⟩) :=
  ⟨by decide, check_product_failure_spec ⟨"S", "N", "U"⟩ 404 .unparsable (by decide)⟩

theorem find_add_to_cart_isSome (buttons : List HtmlButton) :
    (find_add_to_cart buttons).isSome = true ↔
      ∃ b ∈ buttons, (b.dataTestid = some "add-to-cart" ∨
        ∃ t, b.text = some t ∧ strContains (pyLower t) "add to cart" = true) := by
  unfold find_add_to_cart
  cases hfa : buttons.find? (fun b => b.dataTestid == some "add-to-cart") with
  | some b =>
    simp only [Option.isSome_some, true_iff]
    refine ⟨b, List.mem_of_find?_eq_some hfa, Or.inl ?_⟩
    have hp := List.find?_some hfa
    simpa using hp
  | none =>
    have hnone := List.find?_eq_none.mp hfa
    constructor
    · intro h
      obtain ⟨b, hb, hp⟩ := List.find?_isSome.mp h
      refine ⟨b, hb, Or.inr ?_⟩
      cases ht : b.text with
      | none => simp [ht] at hp
      | some t0 =>
        simp only [ht] at hp
        exact ⟨t0, rfl, hp⟩
    · rintro ⟨b, hb, hattr | ⟨t0, ht, hc⟩⟩
      · exact absurd (by simp [hattr] : (b.dataTestid == some "add-to-cart") = true)
          (hnone b hb)
      · exact List.find?_isSome.mpr ⟨b, hb, by simp [ht, hc]⟩

theorem has_out_of_stock_text_eq_false (pageText : String) :
    has_out_of_stock_text pageText = false ↔
      ∀ phrase ∈ out_of_stock_indicators,
        strContains (pyLower pageText) phrase = false := by
  unfold has_out_of_stock_text
  constructor
  · intro h phrase hmem
    cases hh : strContains (pyLower pageText) phrase with
    | false => rfl
    | true =>
      have : out_of_stock_indicators.any
          (fun ind => strContains (pyLower pageText) ind) = true :=
        List.any_eq_true.mpr ⟨phrase, hmem, hh⟩
      rw [h] at this
      cases this
  · intro h
    cases hh : out_of_stock_indicators.any
        (fun ind => strContains (pyLower pageText) ind) with
    | false => rfl
    | true =>
      obtain ⟨phrase, hmem, hp⟩ := List.any_eq_true.mp hh
      rw [h phrase hmem] at hp
      cases hp

/-- C4: the classifier returns `in_stock = true` exactly when an
add-to-cart control is present (by the structural `data-testid` attribute
or by case-insensitive button text) and no phrase of the fixed
unavailability set occurs in the lower-cased page text; an unparsable page
classifies as out of stock; the quantity is extracted independently and a
missing or unparsable quantity text yields `none` without affecting the
classification. -/
theorem classifier_spec (product : ProductConfig) (buttons : List HtmlButton)
    (pageText : String) (quantityText : Option String) :
    ((parse_product_page product (.parsed buttons pageText quantityText)).in_stock =
        true ↔
      ((∃ b ∈ buttons, b.dataTestid = some "add-to-cart" ∨
          ∃ t, b.text = some t ∧ strContains (pyLower t) "add to cart" = true) ∧
       ∀ phrase ∈ out_of_stock_indicators,
         strContains (pyLower pageText) phrase = false)) ∧
    parse_product_page product .unparsable =
      ⟨product.sku, product.name, product.url, false, none⟩ ∧
    (parse_product_page product (.parsed buttons pageText quantityText)).quantity =
      parse_quantity quantityText ∧
    parse_quantity none = none ∧
    parse_quantity (some "n/a") = none := by
  refine ⟨?_, rfl, rfl, rfl, by decide⟩
  have hin : (parse_product_page product
        (.parsed buttons pageText quantityText)).in_stock =
      ((find_add_to_cart buttons).isSome && !has_out_of_stock_text pageText) := rfl
  rw [hin, Bool.and_eq_true, Bool.not_eq_true']
  exact and_congr (find_add_to_cart_isSome buttons)
    (has_out_of_stock_text_eq_false pageText)

/-- C7 counterexample: a 201 response is 2xx, yet `send_alert` returns
`false` — the code tests `response.status == 200` exactly, not
2xx-equivalence. -/
theorem send_alert_spec_counterexample :
    send_alert (.response 201) = false ∧ 200 ≤ 201 ∧ 201 < 300 := by decide

/-- C7 (amended): `send_alert` returns `true` exactly on a status-200
response; every other response status (other 2xx included) and every
transport or unexpected failure returns `false`; the embedding is a total
function, so no exception reaches the caller. -/
theorem send_alert_spec (r : SinkResult) :
    send_alert r = true ↔ r = .response 200 := by
  cases r with
  | response status => simp [send_alert]
  | clientError => simp [send_alert]
  | unexpectedError => simp [send_alert]

theorem should_alert_records (e : DeduplicationEngine) (now : Int) (sku : String)
    (hW : 0 < e.window_minutes) (happ : (e.should_alert now sku).1 = true) :
    mapLookup (e.should_alert now sku).2.last_alerts (pyLower sku) = some now := by
  have hW' : ¬ e.window_minutes ≤ 0 := by omega
  cases h : mapLookup e.last_alerts (pyLower sku) with
  | none =>
    have hcall : e.should_alert now sku =
        (true, ⟨e.window_minutes, mapInsert e.last_alerts (pyLower sku) now⟩) := by
      unfold DeduplicationEngine.should_alert
      simp [hW', h]
    rw [hcall]
    simpa using mapLookup_mapInsert_self e.last_alerts (pyLower sku) now
  | some last =>
    by_cases hlt : now - last < 60 * e.window_minutes
    · have hcall : e.should_alert now sku = (false, e) := by
        unfold DeduplicationEngine.should_alert
        simp [hW', h, hlt]
      rw [hcall] at happ
      cases happ
    · have hcall : e.should_alert now sku =
          (true, ⟨e.window_minutes, mapInsert e.last_alerts (pyLower sku) now⟩) := by
        unfold DeduplicationEngine.should_alert
        simp [hW', h, hlt]
      rw [hcall]
      simpa using mapLookup_mapInsert_self e.last_alerts (pyLower sku) now

/-- C8: a rejected event yields zero sink submissions on both router paths;
an approved event yields exactly one submission whose payload uses the
supplied (non-empty) URL on the store path and the canonical search URL on
the discord path (no URL supplied); the router's resulting dedup engine
does not depend on the sink result, and on approval (with the gate
enabled) the SKU's lower-cased record holds the call time regardless of
the sink outcome. -/
theorem router_spec (e : DeduplicationEngine) (now : Int)
    (name sku url message : String) (quantity : Option Int) (sink sink' : SinkResult)
    (hurl : url ≠ "") (hW : 0 < e.window_minutes) :
    ((e.should_alert now sku).1 = false →
       (on_store_alert e now name sku url quantity sink).2 = [] ∧
       (on_discord_alert e now name sku message sink).2 = []) ∧
    ((e.should_alert now sku).1 = true →
       ((on_store_alert e now name sku url quantity sink).2.map Prod.fst =
          [{ product_name := name, product_sku := sku, source := "store_poller",
             quantity := quantity, url := url, message := none }] ∧
        (on_discord_alert e now name sku message sink).2.map Prod.fst =
          [{ product_name := name, product_sku := sku, source := "discord",
             quantity := none, url := search_url sku, message := some message }] ∧
        mapLookup (on_store_alert e now name sku url quantity sink).1.last_alerts
          (pyLower sku) = some now)) ∧
    (on_store_alert e now name sku url quantity sink).1 =
      (on_store_alert e now name sku url quantity sink').1 ∧
    (on_discord_alert e now name sku message sink).1 =
      (on_discord_alert e now name sku message sink').1 := by
  have hstore1 : ∀ sk, (on_store_alert e now name sku url quantity sk).1 =
      (e.should_alert now sku).2 := by
    intro sk
    simp only [on_store_alert]
    split <;> rfl
  have hdiscord1 : ∀ sk, (on_discord_alert e now name sku message sk).1 =
      (e.should_alert now sku).2 := by
    intro sk
    simp only [on_discord_alert]
    split <;> rfl
  refine ⟨?_, ?_, by rw [hstore1, hstore1], by rw [hdiscord1, hdiscord1]⟩
  · intro hrej
    constructor
    · simp only [on_store_alert]
      rw [if_neg (by simp [hrej])]
    · simp only [on_discord_alert]
      rw [if_neg (by simp [hrej])]
  · intro happ
    refine ⟨?_, ?_, ?_⟩
    · simp only [on_store_alert]
      rw [if_pos happ]
      simp [build_payload, pyTruthyStr, hurl]
    · simp only [on_discord_alert]
      rw [if_pos happ]
      simp [build_payload, pyTruthyStr]
    · rw [hstore1]
      exact should_alert_records e now sku hW happ

/-- Witness for C8: a fresh 30-minute engine, a store URL, and two distinct
sink outcomes (a transport failure and a 200 response). -/
theorem router_spec_witness :
    ("https://store.ui.com/p" : String) ≠ "" ∧
    (0 : Int) < (⟨30, []⟩ : DeduplicationEngine).window_minutes ∧
    ((((⟨30, []⟩ : DeduplicationEngine).should_alert 0 "SKU-1").1 = false →
       (on_store_alert ⟨30, []⟩ 0 "N" "SKU-1" "https://store.ui.com/p" (some 3)
          .clientError).2 = [] ∧
       (on_discord_alert ⟨30, []⟩ 0 "N" "SKU-1" "msg" .clientError).2 = []) ∧
     (((⟨30, []⟩ : DeduplicationEngine).should_alert 0 "SKU-1").1 = true →
       ((on_store_alert ⟨30, []⟩ 0 "N" "SKU-1" "https://store.ui.com/p" (some 3)
            .clientError).2.map Prod.fst =
          [{ product_name := "N", product_sku := "SKU-1", source := "store_poller",
             quantity := some 3, url := "https://store.ui.com/p", message := none }] ∧
        (on_discord_alert ⟨30, []⟩ 0 "N" "SKU-1" "msg" .clientError).2.map Prod.fst =
          [{ product_name := "N", product_sku := "SKU-1", source := "discord",
             quantity := none, url := search_url "SKU-1", message := some "msg" }] ∧
        mapLookup (on_store_alert ⟨30, []⟩ 0 "N" "SKU-1" "https://store.ui.com/p"
            (some 3) .clientError).1.last_alerts (pyLower "SKU-1") = some 0)) ∧
     (on_store_alert ⟨30, []⟩ 0 "N" "SKU-1" "https://store.ui.com/p" (some 3)
        .clientError).1 =
       (on_store_alert ⟨30, []⟩ 0 "N" "SKU-1" "https://store.ui.com/p" (some 3)
          (.response 200)).1 ∧
     (on_discord_alert ⟨30, []⟩ 0 "N" "SKU-1" "msg" .clientError).1 =
       (on_discord_alert ⟨30, []⟩ 0 "N" "SKU-1" "msg" (.response 200)).1) :=
  ⟨by decide, by decide,
    router_spec ⟨30, []⟩ 0 "N" "SKU-1" "https://store.ui.com/p" "msg" (some 3)
      .clientError (.response 200) (by decide) (by decide)⟩

end StockAlert
